import Mathlib

/-!
Verification of the resilient dispatch subsystem of an edge API gateway
(Go repository: circuit breaker + retry/backoff in `pkg/resilience`,
reverse-proxy dispatcher, service registry and health aggregator in
`pkg/proxy/gateway.go`).

The Go code is shallowly embedded: every stateful operation becomes a pure
function from the old state (plus an explicit `now : Nat` clock value where
the code reads the wall clock) to the new state.  Go `int` counters only ever
move between 0 and small increments, so they are modelled as `Nat`;
`time.Duration` values are modelled as `Nat` (an unspecified unit, nanoseconds
in the source); `float64` arithmetic in the backoff policy is modelled as
exact rational arithmetic, with the final truncating conversion to
`time.Duration` modelled as `Int.floor` (all values involved are
non-negative).
-/

namespace Resilience

/-- States of the circuit breaker (Go `CircuitBreakerState`, constants
`StateClosed`, `StateHalfOpen`, `StateOpen`). -/
inductive CircuitBreakerState
  | StateClosed
  | StateHalfOpen
  | StateOpen
deriving DecidableEq, Repr

export CircuitBreakerState (StateClosed StateHalfOpen StateOpen)

/-- Go struct `CircuitBreakerSettings`. -/
structure CircuitBreakerSettings where
  MaxFailures : Nat
  ResetTimeout : Nat
  SuccessThreshold : Nat
  Timeout : Nat
deriving DecidableEq, Repr

/-- Go struct `CircuitBreaker` (the mutex is a code artifact of concurrent
execution and has no sequential content; the remaining fields are carried
verbatim). -/
structure CircuitBreaker where
  state : CircuitBreakerState
  failureCount : Nat
  successCount : Nat
  lastFailureTime : Nat
  settings : CircuitBreakerSettings
deriving DecidableEq, Repr

/-- Go `DefaultSettings`: 5 max failures, 60 s reset timeout, success
threshold 3, 30 s call timeout (durations in nanoseconds). -/
def DefaultSettings : CircuitBreakerSettings :=
  { MaxFailures := 5
    ResetTimeout := 60000000000
    SuccessThreshold := 3
    Timeout := 30000000000 }

/-- Go `NewCircuitBreaker`: starts Closed; the remaining fields take Go's
zero values. -/
def NewCircuitBreaker (settings : CircuitBreakerSettings) : CircuitBreaker :=
  { state := StateClosed
    failureCount := 0
    successCount := 0
    lastFailureTime := 0
    settings := settings }

/-- Go `CircuitBreaker.getState`: lazily performs the Open to HalfOpen
transition (resetting `successCount`) once `ResetTimeout` has strictly
elapsed since `lastFailureTime`, and returns the (possibly updated) state
together with the updated breaker.  `time.Since(lastFailureTime)` is
modelled as `now - lastFailureTime` (truncated subtraction). -/
def CircuitBreaker.getState (cb : CircuitBreaker) (now : Nat) :
    CircuitBreakerState × CircuitBreaker :=
  if cb.state = StateOpen ∧ cb.settings.ResetTimeout < now - cb.lastFailureTime then
    let cb' := { cb with state := StateHalfOpen, successCount := 0 }
    (cb'.state, cb')
  else
    (cb.state, cb)

/-- Go `CircuitBreaker.onSuccess`: increments `successCount`; in HalfOpen at
the success threshold, closes the circuit and zeroes both counters; in
Closed, zeroes `failureCount` only. -/
def CircuitBreaker.onSuccess (cb : CircuitBreaker) : CircuitBreaker :=
  let cb := { cb with successCount := cb.successCount + 1 }
  if cb.state = StateHalfOpen ∧ cb.settings.SuccessThreshold ≤ cb.successCount then
    { cb with state := StateClosed, failureCount := 0, successCount := 0 }
  else if cb.state = StateClosed then
    { cb with failureCount := 0 }
  else
    cb

/-- Go `CircuitBreaker.onFailure`: increments `failureCount`, records
`lastFailureTime := now`, and opens the circuit once `failureCount`
reaches `MaxFailures`.  It does not touch `successCount`. -/
def CircuitBreaker.onFailure (cb : CircuitBreaker) (now : Nat) : CircuitBreaker :=
  let cb := { cb with failureCount := cb.failureCount + 1, lastFailureTime := now }
  if cb.settings.MaxFailures ≤ cb.failureCount then
    { cb with state := StateOpen }
  else
    cb

/-- Result of one `Execute`: the wrapped call succeeded, the wrapped call
failed (its own error or the `executeWithTimeout` deadline), or the circuit
was open and the call was rejected with `circuit breaker is open`. -/
inductive ExecResult
  | ok
  | err
  | circuitOpen
deriving DecidableEq, Repr

/-- Outcome of one `Execute`: the returned result, whether the wrapped
function was actually invoked, and the breaker afterwards. -/
structure ExecOutcome where
  result : ExecResult
  invoked : Bool
  cb : CircuitBreaker
deriving DecidableEq, Repr

/-- Shared body of Go `executeClosed` and `executeHalfOpen` (both are
textually identical in the source): run the call under the timeout, then
record the outcome.  `call = true` means the call (as seen through
`executeWithTimeout`) succeeded; a call error and a timeout are both
`call = false`. -/
def CircuitBreaker.executeCall (cb : CircuitBreaker) (now : Nat) (call : Bool) :
    ExecOutcome :=
  if call then
    ⟨ExecResult.ok, true, cb.onSuccess⟩
  else
    ⟨ExecResult.err, true, cb.onFailure now⟩

/-- Go `CircuitBreaker.Execute`: reads the (lazily updated) state; when Open,
fails fast without invoking the call; otherwise runs the call and records
the outcome. -/
def CircuitBreaker.Execute (cb : CircuitBreaker) (now : Nat) (call : Bool) :
    ExecOutcome :=
  let g := cb.getState now
  match g.1 with
  | StateOpen => ⟨ExecResult.circuitOpen, false, g.2⟩
  | StateHalfOpen => g.2.executeCall now call
  | StateClosed => g.2.executeCall now call

/-- Fold a list of failing executes over a breaker (each list element is the
clock value at which that execute runs).  Used to express "n consecutive
failures". -/
def CircuitBreaker.failRun (cb : CircuitBreaker) (nows : List Nat) : CircuitBreaker :=
  nows.foldl (fun c t => (c.Execute t false).cb) cb

/-- Fold a list of succeeding executes over a breaker. -/
def CircuitBreaker.succeedRun (cb : CircuitBreaker) (nows : List Nat) : CircuitBreaker :=
  nows.foldl (fun c t => (c.Execute t true).cb) cb

/-- Breaker states reachable from a fresh breaker by any sequence of
executes (arbitrary clock values and call outcomes). -/
inductive Reachable (s : CircuitBreakerSettings) : CircuitBreaker → Prop
  | init : Reachable s (NewCircuitBreaker s)
  | exec (now : Nat) (call : Bool) {cb : CircuitBreaker} :
      Reachable s cb → Reachable s (cb.Execute now call).cb

/-! The retry/backoff primitive (Go `Retry` in the same `resilience`
package).  Go computes delays in `float64` and truncates back to
`time.Duration`; the model uses exact rational arithmetic with `Rat.floor`
for the truncation (all quantities involved are non-negative, so Go's
truncation toward zero is the floor). -/

/-- Go helper `pow`: iterated multiplication, `base^exp` for a natural
exponent (the source loops `int(exp)` times starting from 1). -/
def pow (base : ℚ) : Nat → ℚ
  | 0 => 1
  | n + 1 => pow base n * base

/-- Go struct `Retry`.  `BaseDelay`/`MaxDelay` are durations (`Nat`);
`Multiplier` is the source's `float64`, modelled as an exact rational. -/
structure Retry where
  MaxRetries : Nat
  BaseDelay : Nat
  MaxDelay : Nat
  Multiplier : ℚ
  Jitter : Bool

/-- Go `DefaultRetry`: 3 retries, 100 ms base delay, 30 s max delay,
multiplier 2, jitter on (durations in nanoseconds). -/
def DefaultRetry : Retry :=
  { MaxRetries := 3
    BaseDelay := 100000000
    MaxDelay := 30000000000
    Multiplier := 2
    Jitter := true }

/-- Go `Retry.calculateDelay`: exponential delay, capped at `MaxDelay`
before jitter; when `Jitter` is set the capped delay is scaled by a random
factor in `[0.5, 1.0]`, passed here explicitly as `jitterFactor`. -/
def Retry.calculateDelay (r : Retry) (jitterFactor : ℚ) (attempt : Nat) : Nat :=
  let delay : Nat := (⌊(r.BaseDelay : ℚ) * pow r.Multiplier (attempt - 1)⌋).toNat
  let delay : Nat := if r.MaxDelay < delay then r.MaxDelay else delay
  if r.Jitter then (⌊(delay : ℚ) * jitterFactor⌋).toNat else delay

/-- Observable outcome of one `Retry.Execute`: how many times the wrapped
call was invoked, the sleeps performed between attempts (in order), and
whether the whole retry loop ended in success. -/
structure RetryOutcome where
  calls : Nat
  delays : List Nat
  ok : Bool
deriving DecidableEq, Repr

/-- The loop body of Go `Retry.Execute`: `attempt` is the current loop
index, `remaining` the number of loop iterations left
(`MaxRetries + 1 - attempt`); a positive `attempt` first sleeps
`calculateDelay attempt`.  `fn n` is the success/failure of the call at
loop index `n`. -/
def Retry.ExecuteAux (r : Retry) (fn : Nat → Bool) (jitterFactor : ℚ) :
    Nat → Nat → RetryOutcome
  | _, 0 => ⟨0, [], false⟩
  | attempt, n + 1 =>
    let ds : List Nat :=
      if 0 < attempt then [r.calculateDelay jitterFactor attempt] else []
    if fn attempt then
      ⟨1, ds, true⟩
    else
      let rest := Retry.ExecuteAux r fn jitterFactor (attempt + 1) n
      ⟨rest.calls + 1, ds ++ rest.delays, rest.ok⟩

/-- Go `Retry.Execute`: up to `MaxRetries + 1` total attempts, sleeping
`calculateDelay attempt` before each retry; returns on first success;
after exhausting all attempts the last failure is returned. -/
def Retry.Execute (r : Retry) (fn : Nat → Bool) (jitterFactor : ℚ) : RetryOutcome :=
  Retry.ExecuteAux r fn jitterFactor 0 (r.MaxRetries + 1)

/-- Go `CircuitBreakerState.String`: the state's observable name. -/
def CircuitBreakerState.String : CircuitBreakerState → String
  | StateClosed => "CLOSED"
  | StateHalfOpen => "HALF_OPEN"
  | StateOpen => "OPEN"

/-- The snapshot returned by Go `CircuitBreaker.GetStats` (a Go map carrying
the state's string name, both counters and the last-failure timestamp). -/
structure BreakerStats where
  state : String
  failure_count : Nat
  success_count : Nat
  last_failure : Nat
deriving DecidableEq, Repr

/-- Go `CircuitBreaker.GetStats`. -/
def CircuitBreaker.GetStats (cb : CircuitBreaker) : BreakerStats :=
  { state := cb.state.String
    failure_count := cb.failureCount
    success_count := cb.successCount
    last_failure := cb.lastFailureTime }

end Resilience

/-! The reverse-proxy gateway (Go source `pkg/proxy/gateway.go`): service
registry, dispatcher and health aggregation. -/

namespace Proxy

open Resilience

/-- Go struct `ServiceConfig`.  The `CircuitBreaker` field is a pointer in
the source and may be nil until `RegisterService` fills it in, hence
`Option`. -/
structure ServiceConfig where
  Name : String
  URL : String
  HealthPath : String
  Timeout : Nat
  Retries : Nat
  CircuitBreaker : Option Resilience.CircuitBreaker
deriving DecidableEq, Repr

/-- Go struct `Gateway`: the `services` map, modelled as a partial lookup
function (the tracer field carries no dispatch-relevant state). -/
structure Gateway where
  services : String → Option ServiceConfig

/-- Go `NewGateway`: an empty registry. -/
def NewGateway : Gateway := ⟨fun _ => none⟩

/-- The defaulting performed at the top of Go `RegisterService`: a nil
breaker is replaced by a fresh default breaker, a zero timeout by 30 s. -/
def serviceWithDefaults (service : ServiceConfig) : ServiceConfig :=
  let service :=
    match service.CircuitBreaker with
    | none =>
      { service with CircuitBreaker := some (NewCircuitBreaker DefaultSettings) }
    | some _ => service
  if service.Timeout = 0 then { service with Timeout := 30000000000 } else service

/-- Go `Gateway.RegisterService`: unconditionally stores the (defaulted)
config under `service.Name`.  There is no duplicate check: an existing
entry under the same name is overwritten, and the function cannot fail. -/
def Gateway.RegisterService (g : Gateway) (service : ServiceConfig) : Gateway :=
  let service := serviceWithDefaults service
  ⟨fun n => if n = service.Name then some service else g.services n⟩

/-- What the network did for one forwarded request: the backend completed a
round trip with some status code, or the transport failed (connection
refused, reset, unreachable host) so the reverse proxy's `ErrorHandler`
ran. -/
inductive TransportOutcome
  | roundTrip (status : Nat)
  | transportError
deriving DecidableEq, Repr

/-- Go `Gateway.proxyRequest` for one forwarded request, as a function of
whether the configured URL parses and of the transport outcome.  Returns
(status written to the client by the reverse proxy, whether a Go error is
returned to the caller).  Crucially: on a transport error the
`ErrorHandler` writes 502 to the client but `proxyRequest` still returns
nil — only an unparsable target URL makes it return an error (writing
nothing). -/
def proxyRequest (validURL : Bool) (t : TransportOutcome) : Option Nat × Bool :=
  if validURL then
    match t with
    | TransportOutcome.roundTrip s => (some s, false)
    | TransportOutcome.transportError => (some 502, false)
  else
    (none, true)

/-- The body of Go `Gateway.ProxyHandler` once the service has been looked
up, with the service's breaker passed explicitly (Go mutates it in place).
The breaker runs `proxyRequest` as its call; the handler then maps the
circuit-open error to 503 and any other returned error to 502, while a nil
error leaves the status the proxy already wrote (the `getD` default is
unreachable: a nil error implies a written response). -/
def dispatch (cb : Resilience.CircuitBreaker) (now : Nat) (validURL : Bool)
    (t : TransportOutcome) : Nat × Resilience.CircuitBreaker :=
  let pr := proxyRequest validURL t
  let out := cb.Execute now (!pr.2)
  match out.result with
  | ExecResult.circuitOpen => (503, out.cb)
  | ExecResult.err => (502, out.cb)
  | ExecResult.ok => (pr.1.getD 200, out.cb)

/-- Result of the health probe HTTP round trip in Go
`checkServiceHealth`: the `client.Do` call failed, or it returned a
response with some status code. -/
inductive ProbeOutcome
  | probeError
  | response (status : Nat)
deriving DecidableEq, Repr

/-- Go `Gateway.checkServiceHealth` as a function of the probe outcome: an
empty `HealthPath` is healthy without a network call; a probe error is
unhealthy; a 2xx status is healthy and anything else unhealthy. -/
def checkServiceHealth (service : ServiceConfig) (probe : ProbeOutcome) :
    Bool × String :=
  if service.HealthPath = "" then
    (true, "No health check configured")
  else
    match probe with
    | ProbeOutcome.probeError => (false, "Health check failed")
    | ProbeOutcome.response s =>
      if 200 ≤ s ∧ s < 300 then (true, "Health check passed")
      else (false, "Health check failed with status")

/-- One per-service entry of the aggregate health response. -/
structure HealthEntry where
  name : String
  healthy : Bool
  details : String
  circuit_breaker : Resilience.BreakerStats
deriving DecidableEq, Repr

/-- The aggregate health response: HTTP status, overall flag, per-service
breakdown. -/
structure HealthReport where
  status : Nat
  overallHealthy : Bool
  services : List HealthEntry
deriving DecidableEq, Repr

/-- The breaker snapshot taken for a service's health entry
(`service.CircuitBreaker.GetStats()` in Go).  Registered services always
carry a breaker (`RegisterService` inserts one); the default supplied to
`getD` only stands in for the nil-pointer dereference Go would otherwise
crash on. -/
def serviceStats (service : ServiceConfig) : Resilience.BreakerStats :=
  (service.CircuitBreaker.getD (NewCircuitBreaker DefaultSettings)).GetStats

/-- The loop body of Go `HealthCheckHandler`: append this service's entry
and fold its healthy flag into the running `overallHealthy`. -/
def healthStep (acc : List HealthEntry × Bool)
    (e : ServiceConfig × ProbeOutcome) : List HealthEntry × Bool :=
  let hd := checkServiceHealth e.1 e.2
  (acc.1 ++ [⟨e.1.Name, hd.1, hd.2, serviceStats e.1⟩], acc.2 && hd.1)

/-- Go `Gateway.HealthCheckHandler` over the registered services (the map
iteration is modelled as a list of services paired with their probe
outcomes): per-service results, overall healthy = conjunction, HTTP status
200 when all healthy and 503 otherwise. -/
def HealthCheckHandler (entries : List (ServiceConfig × ProbeOutcome)) :
    HealthReport :=
  let r := entries.foldl healthStep ([], true)
  let status := if r.2 then 200 else 503
  ⟨status, r.2, r.1⟩

end Proxy

namespace Resilience

/-! Basic unfolding lemmas for the breaker transition functions. -/

theorem CircuitBreaker.getState_of_ne_open {cb : CircuitBreaker} (now : Nat)
    (h : cb.state ≠ StateOpen) : cb.getState now = (cb.state, cb) := by
  simp [CircuitBreaker.getState, h]

theorem CircuitBreaker.Execute_closed {cb : CircuitBreaker} (now : Nat) (call : Bool)
    (h : cb.state = StateClosed) : cb.Execute now call = cb.executeCall now call := by
  rw [CircuitBreaker.Execute, CircuitBreaker.getState_of_ne_open now (by simp [h]), h]

theorem CircuitBreaker.Execute_halfOpen {cb : CircuitBreaker} (now : Nat) (call : Bool)
    (h : cb.state = StateHalfOpen) : cb.Execute now call = cb.executeCall now call := by
  rw [CircuitBreaker.Execute, CircuitBreaker.getState_of_ne_open now (by simp [h]), h]

theorem CircuitBreaker.Execute_open_waiting {cb : CircuitBreaker} (now : Nat) (call : Bool)
    (h : cb.state = StateOpen)
    (ht : now - cb.lastFailureTime ≤ cb.settings.ResetTimeout) :
    cb.Execute now call = ⟨ExecResult.circuitOpen, false, cb⟩ := by
  have : cb.getState now = (cb.state, cb) := by
    simp [CircuitBreaker.getState, Nat.not_lt.mpr ht]
  rw [CircuitBreaker.Execute, this, h]

theorem CircuitBreaker.Execute_open_elapsed {cb : CircuitBreaker} (now : Nat) (call : Bool)
    (h : cb.state = StateOpen)
    (ht : cb.settings.ResetTimeout < now - cb.lastFailureTime) :
    cb.Execute now call =
      ({ cb with state := StateHalfOpen, successCount := 0 } : CircuitBreaker).executeCall
        now call := by
  have : cb.getState now =
      (StateHalfOpen, { cb with state := StateHalfOpen, successCount := 0 }) := by
    simp [CircuitBreaker.getState, h, ht]
  rw [CircuitBreaker.Execute, this]

theorem CircuitBreaker.Execute_settings (cb : CircuitBreaker) (now : Nat) (call : Bool) :
    (cb.Execute now call).cb.settings = cb.settings := by
  rcases cb with ⟨st, f, s, l, g⟩
  rcases st <;> rcases call <;>
    simp [CircuitBreaker.Execute, CircuitBreaker.getState, CircuitBreaker.executeCall,
      CircuitBreaker.onSuccess, CircuitBreaker.onFailure] <;>
    split_ifs <;> rfl

/-- Running failures through a Closed breaker that stays strictly below
`MaxFailures` keeps it Closed and adds one to `failureCount` per failure. -/
theorem CircuitBreaker.failRun_closed (nows : List Nat) (cb : CircuitBreaker)
    (h1 : cb.state = StateClosed)
    (h2 : cb.failureCount + nows.length < cb.settings.MaxFailures) :
    (cb.failRun nows).state = StateClosed ∧
    (cb.failRun nows).failureCount = cb.failureCount + nows.length ∧
    (cb.failRun nows).settings = cb.settings := by
  induction nows generalizing cb with
  | nil => simp [CircuitBreaker.failRun, h1]
  | cons t rest ih =>
    have hstep : (cb.Execute t false).cb =
        { cb with failureCount := cb.failureCount + 1, lastFailureTime := t } := by
      rw [CircuitBreaker.Execute_closed t false h1]
      simp only [CircuitBreaker.executeCall, CircuitBreaker.onFailure]
      have : ¬ cb.settings.MaxFailures ≤ cb.failureCount + 1 := by
        simp only [List.length_cons] at h2; omega
      simp [this]
    have h2' : cb.failureCount + 1 + rest.length < cb.settings.MaxFailures := by
      simp only [List.length_cons] at h2; omega
    have := ih ({ cb with failureCount := cb.failureCount + 1, lastFailureTime := t })
      (by simp [h1]) (by simpa using h2')
    simp only [CircuitBreaker.failRun, List.foldl_cons] at *
    rw [hstep]
    refine ⟨this.1, ?_, ?_⟩
    · rw [this.2.1]; simp only [List.length_cons]; omega
    · exact this.2.2

/-- C2: starting from a fresh breaker whose `MaxFailures` is `k ≥ 1`, any
sequence of `k - 1` consecutive failing executes leaves the breaker Closed,
the `k`-th execute still invokes the wrapped call, and after exactly `k`
consecutive failures the breaker is Open. -/
theorem C2_closed_failure_threshold (s : CircuitBreakerSettings) (k t : Nat)
    (nows : List Nat) (hk : 1 ≤ k) (hmax : s.MaxFailures = k)
    (hlen : nows.length = k - 1) :
    ((NewCircuitBreaker s).failRun nows).state = StateClosed ∧
    (((NewCircuitBreaker s).failRun nows).Execute t false).invoked = true ∧
    ((NewCircuitBreaker s).failRun (nows ++ [t])).state = StateOpen := by
  obtain ⟨hst, hfc, hset⟩ :=
    CircuitBreaker.failRun_closed nows (NewCircuitBreaker s) rfl
      (by simp only [NewCircuitBreaker, hmax, hlen]; omega)
  refine ⟨hst, ?_, ?_⟩
  · rw [CircuitBreaker.Execute_closed t false hst]
    simp [CircuitBreaker.executeCall]
  · have happ : (NewCircuitBreaker s).failRun (nows ++ [t]) =
        (((NewCircuitBreaker s).failRun nows).Execute t false).cb := by
      simp [CircuitBreaker.failRun, List.foldl_append]
    rw [happ, CircuitBreaker.Execute_closed t false hst]
    simp only [CircuitBreaker.executeCall, Bool.false_eq_true, if_false,
      CircuitBreaker.onFailure]
    have hcond : ((NewCircuitBreaker s).failRun nows).settings.MaxFailures ≤
        ((NewCircuitBreaker s).failRun nows).failureCount + 1 := by
      rw [hset, hfc]
      simp only [NewCircuitBreaker, hlen, hmax]
      omega
    simp [hcond]

/-- Concrete instance of `C2_closed_failure_threshold` with `k = 2`. -/
theorem C2_closed_failure_threshold_witness :
    ((NewCircuitBreaker ⟨2, 10, 1, 1⟩).failRun [0]).state = StateClosed ∧
    (((NewCircuitBreaker ⟨2, 10, 1, 1⟩).failRun [0]).Execute 5 false).invoked = true ∧
    ((NewCircuitBreaker ⟨2, 10, 1, 1⟩).failRun ([0] ++ [5])).state = StateOpen :=
  C2_closed_failure_threshold ⟨2, 10, 1, 1⟩ 2 5 [0] (by decide) rfl rfl

/-- C3: while the breaker is Open and `ResetTimeout` has not yet strictly
elapsed since `lastFailureTime`, `Execute` never invokes the call and
returns the circuit-open error leaving the breaker unchanged; once
`ResetTimeout` has elapsed, the next `Execute` transitions the breaker to
HalfOpen (resetting `successCount` to 0) and does invoke the call. -/
theorem C3_open_fail_fast_then_halfOpen_probe (cb : CircuitBreaker) (now : Nat)
    (call : Bool) (h : cb.state = StateOpen) :
    (now - cb.lastFailureTime ≤ cb.settings.ResetTimeout →
      cb.Execute now call = ⟨ExecResult.circuitOpen, false, cb⟩) ∧
    (cb.settings.ResetTimeout < now - cb.lastFailureTime →
      ((cb.getState now).1 = StateHalfOpen ∧
       (cb.getState now).2.state = StateHalfOpen ∧
       (cb.getState now).2.successCount = 0 ∧
       (cb.Execute now call).invoked = true)) := by
  constructor
  · intro ht
    exact CircuitBreaker.Execute_open_waiting now call h ht
  · intro ht
    have hg : cb.getState now =
        (StateHalfOpen, { cb with state := StateHalfOpen, successCount := 0 }) := by
      simp [CircuitBreaker.getState, h, ht]
    refine ⟨by rw [hg], by rw [hg], by rw [hg], ?_⟩
    rw [CircuitBreaker.Execute_open_elapsed now call h ht]
    cases call <;> simp [CircuitBreaker.executeCall]

/-- Concrete instance of `C3_open_fail_fast_then_halfOpen_probe`: an Open
breaker with `ResetTimeout = 10` and `lastFailureTime = 0`, probed at
`now = 5` (still waiting) and at `now = 20` (timeout elapsed). -/
theorem C3_open_fail_fast_then_halfOpen_probe_witness :
    ((⟨StateOpen, 2, 0, 0, ⟨2, 10, 1, 1⟩⟩ : CircuitBreaker).Execute 5 true =
      ⟨ExecResult.circuitOpen, false, ⟨StateOpen, 2, 0, 0, ⟨2, 10, 1, 1⟩⟩⟩) ∧
    (((⟨StateOpen, 2, 0, 0, ⟨2, 10, 1, 1⟩⟩ : CircuitBreaker).getState 20).1 =
        StateHalfOpen ∧
     ((⟨StateOpen, 2, 0, 0, ⟨2, 10, 1, 1⟩⟩ : CircuitBreaker).getState 20).2.state =
        StateHalfOpen ∧
     ((⟨StateOpen, 2, 0, 0, ⟨2, 10, 1, 1⟩⟩ : CircuitBreaker).getState
        20).2.successCount = 0 ∧
     ((⟨StateOpen, 2, 0, 0, ⟨2, 10, 1, 1⟩⟩ : CircuitBreaker).Execute 20
        true).invoked = true) :=
  ⟨(C3_open_fail_fast_then_halfOpen_probe _ 5 true rfl).1 (by decide),
   (C3_open_fail_fast_then_halfOpen_probe _ 20 true rfl).2 (by decide)⟩

theorem CircuitBreaker.Execute_halfOpen_success_below {cb : CircuitBreaker} (now : Nat)
    (h : cb.state = StateHalfOpen)
    (hlt : cb.successCount + 1 < cb.settings.SuccessThreshold) :
    (cb.Execute now true).cb = { cb with successCount := cb.successCount + 1 } := by
  rw [CircuitBreaker.Execute_halfOpen now true h]
  simp [CircuitBreaker.executeCall, CircuitBreaker.onSuccess, h, Nat.not_le.mpr hlt]

theorem CircuitBreaker.Execute_halfOpen_success_at {cb : CircuitBreaker} (now : Nat)
    (h : cb.state = StateHalfOpen)
    (hge : cb.settings.SuccessThreshold ≤ cb.successCount + 1) :
    (cb.Execute now true).cb =
      { cb with state := StateClosed, failureCount := 0, successCount := 0 } := by
  rw [CircuitBreaker.Execute_halfOpen now true h]
  simp [CircuitBreaker.executeCall, CircuitBreaker.onSuccess, h, hge]

theorem CircuitBreaker.Execute_halfOpen_failure {cb : CircuitBreaker} (now : Nat)
    (h : cb.state = StateHalfOpen)
    (hge : cb.settings.MaxFailures ≤ cb.failureCount + 1) :
    (cb.Execute now false).cb =
      { cb with
          state := StateOpen
          failureCount := cb.failureCount + 1
          lastFailureTime := now } := by
  rw [CircuitBreaker.Execute_halfOpen now false h]
  simp [CircuitBreaker.executeCall, CircuitBreaker.onFailure, hge]

/-- Running successes through a HalfOpen breaker until the success threshold
is exactly met closes the circuit and zeroes both counters. -/
theorem CircuitBreaker.succeedRun_halfOpen (nows : List Nat) (cb : CircuitBreaker)
    (h : cb.state = StateHalfOpen)
    (hsum : cb.successCount + nows.length = cb.settings.SuccessThreshold)
    (hne : nows ≠ []) :
    (cb.succeedRun nows).state = StateClosed ∧
    (cb.succeedRun nows).failureCount = 0 ∧
    (cb.succeedRun nows).successCount = 0 := by
  induction nows generalizing cb with
  | nil => exact absurd rfl hne
  | cons t rest ih =>
    rcases rest with _ | ⟨t2, rest2⟩
    · have hat : cb.settings.SuccessThreshold ≤ cb.successCount + 1 := by
        simp only [List.length_cons, List.length_nil] at hsum
        omega
      have hstep := CircuitBreaker.Execute_halfOpen_success_at t h hat
      simp [CircuitBreaker.succeedRun, hstep]
    · have hlt : cb.successCount + 1 < cb.settings.SuccessThreshold := by
        simp only [List.length_cons] at hsum
        omega
      have hstep := CircuitBreaker.Execute_halfOpen_success_below t h hlt
      have hrec := ih ({ cb with successCount := cb.successCount + 1 })
        (by simp [h])
        (by simp only [List.length_cons] at hsum ⊢; omega)
        (by simp)
      simp only [CircuitBreaker.succeedRun, List.foldl_cons] at hrec ⊢
      rw [hstep]
      exact hrec

/-- C4 as stated is false on the code: a single failed execute in HalfOpen
does transition back to Open and records `lastFailureTime`, but it does NOT
reset `successCount` to 0 (`onFailure` never touches `successCount`).
Script from a fresh breaker with `MaxFailures = 1`, `ResetTimeout = 0`,
`SuccessThreshold = 2`: fail at `now = 0` (Closed to Open), succeed at
`now = 1` (Open to HalfOpen probe, `successCount = 1`), fail at `now = 2`:
the breaker is back in Open with `successCount = 1`, not 0. -/
theorem C4_halfOpen_failure_counterexample :
    (((NewCircuitBreaker ⟨1, 0, 2, 1⟩).Execute 0 false).cb.Execute 1
        true).cb.state = StateHalfOpen ∧
    ((((NewCircuitBreaker ⟨1, 0, 2, 1⟩).Execute 0 false).cb.Execute 1
        true).cb.Execute 2 false).cb.state = StateOpen ∧
    ((((NewCircuitBreaker ⟨1, 0, 2, 1⟩).Execute 0 false).cb.Execute 1
        true).cb.Execute 2 false).cb.successCount = 1 := by
  decide

/-- C4 amended: with `successThreshold = s ≥ 1`, `s` consecutive HalfOpen
successes (starting from the `successCount = 0` the Open-to-HalfOpen
transition establishes) close the circuit with both counters reset to 0;
a single HalfOpen failure transitions back to Open (its `failureCount` is
already at least `MaxFailures` in every reachable HalfOpen state) and
records `lastFailureTime`, but leaves `successCount` unchanged —
`successCount` is reset only at the next Open-to-HalfOpen transition. -/
theorem C4_halfOpen_success_and_failure (cb : CircuitBreaker) (now : Nat)
    (nows : List Nat) :
    (cb.state = StateHalfOpen → cb.successCount = 0 →
      nows.length = cb.settings.SuccessThreshold → 1 ≤ cb.settings.SuccessThreshold →
      (cb.succeedRun nows).state = StateClosed ∧
      (cb.succeedRun nows).failureCount = 0 ∧
      (cb.succeedRun nows).successCount = 0) ∧
    (cb.state = StateHalfOpen → cb.settings.MaxFailures ≤ cb.failureCount →
      (cb.Execute now false).cb.state = StateOpen ∧
      (cb.Execute now false).cb.lastFailureTime = now ∧
      (cb.Execute now false).cb.successCount = cb.successCount) := by
  constructor
  · intro h hzero hlen hpos
    exact CircuitBreaker.succeedRun_halfOpen nows cb h (by omega)
      (by cases nows with
          | nil => simp at hlen; omega
          | cons a l => simp)
  · intro h hge
    have hstep := CircuitBreaker.Execute_halfOpen_failure now h (by omega)
    rw [hstep]
    exact ⟨rfl, rfl, rfl⟩

/-- Concrete instance of `C4_halfOpen_success_and_failure`: a HalfOpen
breaker with `SuccessThreshold = 2` closed by two successes, and a HalfOpen
breaker with `successCount = 1` reopened by one failure keeping
`successCount = 1`. -/
theorem C4_halfOpen_success_and_failure_witness :
    (((⟨StateHalfOpen, 2, 0, 0, ⟨2, 10, 2, 1⟩⟩ : CircuitBreaker).succeedRun
        [3, 4]).state = StateClosed ∧
     ((⟨StateHalfOpen, 2, 0, 0, ⟨2, 10, 2, 1⟩⟩ : CircuitBreaker).succeedRun
        [3, 4]).failureCount = 0 ∧
     ((⟨StateHalfOpen, 2, 0, 0, ⟨2, 10, 2, 1⟩⟩ : CircuitBreaker).succeedRun
        [3, 4]).successCount = 0) ∧
    (((⟨StateHalfOpen, 2, 1, 0, ⟨2, 10, 2, 1⟩⟩ : CircuitBreaker).Execute 7
        false).cb.state = StateOpen ∧
     ((⟨StateHalfOpen, 2, 1, 0, ⟨2, 10, 2, 1⟩⟩ : CircuitBreaker).Execute 7
        false).cb.lastFailureTime = 7 ∧
     ((⟨StateHalfOpen, 2, 1, 0, ⟨2, 10, 2, 1⟩⟩ : CircuitBreaker).Execute 7
        false).cb.successCount = 1) :=
  ⟨(C4_halfOpen_success_and_failure ⟨StateHalfOpen, 2, 0, 0, ⟨2, 10, 2, 1⟩⟩ 0
      [3, 4]).1 rfl rfl rfl (by decide),
   (C4_halfOpen_success_and_failure ⟨StateHalfOpen, 2, 1, 0, ⟨2, 10, 2, 1⟩⟩ 7
      []).2 rfl (by decide)⟩

/-- C5 as stated is false on the code: the Closed-to-Open transition
performed by `onFailure` does not reset either counter.  A fresh breaker
with `MaxFailures = 1` transitions Closed to Open on its first failing
execute with `failureCount = 1`, not 0. -/
theorem C5_transition_reset_counterexample :
    (NewCircuitBreaker ⟨1, 10, 1, 1⟩).state = StateClosed ∧
    ((NewCircuitBreaker ⟨1, 10, 1, 1⟩).Execute 0 false).cb.state = StateOpen ∧
    ((NewCircuitBreaker ⟨1, 10, 1, 1⟩).Execute 0 false).cb.failureCount = 1 := by
  decide

/-- C5 amended: on the Open-to-HalfOpen transition (in `getState`),
`successCount` is reset to 0 but `failureCount` is unchanged; on the
HalfOpen-to-Closed transition (in `onSuccess`) both counters are reset to
0; on any transition into Open (in `onFailure`, covering Closed-to-Open and
HalfOpen-to-Open), `failureCount` equals its incremented value — at least
`MaxFailures`, not 0 — and `successCount` is unchanged. -/
theorem C5_transition_counter_resets (cb : CircuitBreaker) (now : Nat) :
    (cb.state = StateOpen → cb.settings.ResetTimeout < now - cb.lastFailureTime →
      (cb.getState now).2.state = StateHalfOpen ∧
      (cb.getState now).2.successCount = 0 ∧
      (cb.getState now).2.failureCount = cb.failureCount) ∧
    (cb.state = StateHalfOpen → cb.settings.SuccessThreshold ≤ cb.successCount + 1 →
      cb.onSuccess.state = StateClosed ∧ cb.onSuccess.failureCount = 0 ∧
      cb.onSuccess.successCount = 0) ∧
    (cb.settings.MaxFailures ≤ cb.failureCount + 1 →
      (cb.onFailure now).state = StateOpen ∧
      (cb.onFailure now).failureCount = cb.failureCount + 1 ∧
      (cb.onFailure now).successCount = cb.successCount) := by
  refine ⟨?_, ?_, ?_⟩
  · intro h ht
    simp [CircuitBreaker.getState, h, ht]
  · intro h hge
    simp [CircuitBreaker.onSuccess, h, hge]
  · intro hge
    simp [CircuitBreaker.onFailure, hge]

/-- Concrete instance of `C5_transition_counter_resets` at each of the three
transition sites. -/
theorem C5_transition_counter_resets_witness :
    (((⟨StateOpen, 2, 3, 0, ⟨2, 10, 2, 1⟩⟩ : CircuitBreaker).getState 20).2.state =
        StateHalfOpen ∧
     ((⟨StateOpen, 2, 3, 0, ⟨2, 10, 2, 1⟩⟩ : CircuitBreaker).getState
        20).2.successCount = 0 ∧
     ((⟨StateOpen, 2, 3, 0, ⟨2, 10, 2, 1⟩⟩ : CircuitBreaker).getState
        20).2.failureCount = 2) ∧
    ((⟨StateHalfOpen, 2, 1, 0, ⟨2, 10, 2, 1⟩⟩ : CircuitBreaker).onSuccess.state =
        StateClosed ∧
     (⟨StateHalfOpen, 2, 1, 0, ⟨2, 10, 2, 1⟩⟩ :
        CircuitBreaker).onSuccess.failureCount = 0 ∧
     (⟨StateHalfOpen, 2, 1, 0, ⟨2, 10, 2, 1⟩⟩ :
        CircuitBreaker).onSuccess.successCount = 0) ∧
    (((⟨StateClosed, 1, 0, 0, ⟨2, 10, 2, 1⟩⟩ : CircuitBreaker).onFailure 9).state =
        StateOpen ∧
     ((⟨StateClosed, 1, 0, 0, ⟨2, 10, 2, 1⟩⟩ : CircuitBreaker).onFailure
        9).failureCount = 2 ∧
     ((⟨StateClosed, 1, 0, 0, ⟨2, 10, 2, 1⟩⟩ : CircuitBreaker).onFailure
        9).successCount = 0) :=
  ⟨(C5_transition_counter_resets ⟨StateOpen, 2, 3, 0, ⟨2, 10, 2, 1⟩⟩ 20).1 rfl
      (by decide),
   (C5_transition_counter_resets ⟨StateHalfOpen, 2, 1, 0, ⟨2, 10, 2, 1⟩⟩ 0).2.1 rfl
      (by decide),
   (C5_transition_counter_resets ⟨StateClosed, 1, 0, 0, ⟨2, 10, 2, 1⟩⟩ 9).2.2
      (by decide)⟩

/-- One execute step preserves the floor invariant: outside Closed,
`failureCount` is at least `MaxFailures`. -/
theorem CircuitBreaker.Execute_FailInv (cb : CircuitBreaker) (now : Nat) (call : Bool)
    (h : cb.state ≠ StateClosed → cb.settings.MaxFailures ≤ cb.failureCount) :
    (cb.Execute now call).cb.state ≠ StateClosed →
      (cb.Execute now call).cb.settings.MaxFailures ≤
        (cb.Execute now call).cb.failureCount := by
  rcases cb with ⟨st, f, sc, l, g⟩
  rcases st <;> rcases call <;>
    simp_all [CircuitBreaker.Execute, CircuitBreaker.getState,
      CircuitBreaker.executeCall, CircuitBreaker.onSuccess,
      CircuitBreaker.onFailure] <;>
    split_ifs <;> simp_all <;> omega

/-- Every breaker reachable from `NewCircuitBreaker s` still carries the
settings `s`. -/
theorem CircuitBreaker.reachable_settings {s : CircuitBreakerSettings}
    {cb : CircuitBreaker} (h : Reachable s cb) : cb.settings = s := by
  induction h with
  | init => rfl
  | exec now call _ ih => rw [CircuitBreaker.Execute_settings]; exact ih

/-- In every reachable breaker state outside Closed, `failureCount` is at
least `MaxFailures`. -/
theorem CircuitBreaker.reachable_FailInv {s : CircuitBreakerSettings}
    {cb : CircuitBreaker} (h : Reachable s cb) :
    cb.state ≠ StateClosed → cb.settings.MaxFailures ≤ cb.failureCount := by
  induction h with
  | init => intro hne; exact absurd rfl hne
  | exec now call _ ih => exact CircuitBreaker.Execute_FailInv _ now call ih

/-- If an execute step strictly decreases `failureCount`, then it zeroed the
counter via `onSuccess` and left the breaker Closed, and the wrapped call
succeeded. -/
theorem CircuitBreaker.Execute_failureCount_decrease (cb : CircuitBreaker)
    (now : Nat) (call : Bool) :
    (cb.Execute now call).cb.failureCount < cb.failureCount →
    (cb.Execute now call).cb.failureCount = 0 ∧ call = true ∧
    (cb.Execute now call).cb.state = StateClosed := by
  rcases cb with ⟨st, f, sc, l, g⟩
  rcases st <;> rcases call <;>
    simp only [CircuitBreaker.Execute, CircuitBreaker.getState,
      CircuitBreaker.executeCall, CircuitBreaker.onSuccess,
      CircuitBreaker.onFailure] <;>
    split_ifs <;> simp_all

/-- C10 as stated is false in one clause: `failureCount` is reset to 0 not
only on the HalfOpen-to-Closed transition but also on every successful
execute while Closed.  With `MaxFailures = 2`: one failure leaves Closed
with `failureCount = 1`; one success then zeroes it with no state change. -/
theorem C10_failureCount_reset_counterexample :
    ((NewCircuitBreaker ⟨2, 10, 1, 1⟩).Execute 0 false).cb.state = StateClosed ∧
    ((NewCircuitBreaker ⟨2, 10, 1, 1⟩).Execute 0 false).cb.failureCount = 1 ∧
    (((NewCircuitBreaker ⟨2, 10, 1, 1⟩).Execute 0 false).cb.Execute 1
        true).cb.state = StateClosed ∧
    (((NewCircuitBreaker ⟨2, 10, 1, 1⟩).Execute 0 false).cb.Execute 1
        true).cb.failureCount = 0 := by
  decide

/-- C10 amended: in every reachable state of a breaker created with
`MaxFailures ≥ 1`, if the state is Open or HalfOpen then `failureCount` is
at least `MaxFailures`; `failureCount` drops only when a successful call
leaves the breaker Closed (either the HalfOpen-to-Closed transition or a
success while already Closed); and the floor invariant is what makes a
single failed HalfOpen trial re-open the circuit even though the failure
branch has no state-specific transition. -/
theorem C10_failure_floor_invariant (s : CircuitBreakerSettings)
    (cb : CircuitBreaker) (now : Nat) (call : Bool) :
    (1 ≤ s.MaxFailures → Reachable s cb → cb.state ≠ StateClosed →
      s.MaxFailures ≤ cb.failureCount) ∧
    (cb.state = StateHalfOpen → cb.settings.MaxFailures ≤ cb.failureCount →
      (cb.Execute now false).cb.state = StateOpen) ∧
    ((cb.Execute now call).cb.failureCount < cb.failureCount →
      (cb.Execute now call).cb.failureCount = 0 ∧ call = true ∧
      (cb.Execute now call).cb.state = StateClosed) := by
  refine ⟨?_, ?_, ?_⟩
  · intro _ hr hne
    have := CircuitBreaker.reachable_FailInv hr hne
    rwa [CircuitBreaker.reachable_settings hr] at this
  · intro h hge
    rw [CircuitBreaker.Execute_halfOpen_failure now h (by omega)]
  · exact CircuitBreaker.Execute_failureCount_decrease cb now call

/-- Concrete instance of `C10_failure_floor_invariant`: the reachable Open
state after one failure with `MaxFailures = 1`; a HalfOpen reopening; and a
Closed success zeroing `failureCount`. -/
theorem C10_failure_floor_invariant_witness :
    ((⟨1, 10, 1, 1⟩ : CircuitBreakerSettings).MaxFailures ≤
      ((NewCircuitBreaker ⟨1, 10, 1, 1⟩).Execute 0 false).cb.failureCount) ∧
    ((⟨StateHalfOpen, 2, 0, 0, ⟨2, 10, 2, 1⟩⟩ : CircuitBreaker).Execute 3
        false).cb.state = StateOpen ∧
    (((⟨StateClosed, 1, 0, 0, ⟨2, 10, 2, 1⟩⟩ : CircuitBreaker).Execute 3
        true).cb.failureCount = 0 ∧ true = true ∧
     ((⟨StateClosed, 1, 0, 0, ⟨2, 10, 2, 1⟩⟩ : CircuitBreaker).Execute 3
        true).cb.state = StateClosed) :=
  ⟨(C10_failure_floor_invariant ⟨1, 10, 1, 1⟩
      ((NewCircuitBreaker ⟨1, 10, 1, 1⟩).Execute 0 false).cb 0 false).1
      (by decide) (Reachable.exec 0 false Reachable.init) (by decide),
   (C10_failure_floor_invariant ⟨2, 10, 2, 1⟩
      ⟨StateHalfOpen, 2, 0, 0, ⟨2, 10, 2, 1⟩⟩ 3 false).2.1 rfl (by decide),
   (C10_failure_floor_invariant ⟨2, 10, 2, 1⟩
      ⟨StateClosed, 1, 0, 0, ⟨2, 10, 2, 1⟩⟩ 3 true).2.2 (by decide)⟩

theorem pow_eq_hpow (base : ℚ) (n : Nat) : pow base n = base ^ n := by
  induction n with
  | zero => simp [pow]
  | succ m ih => rw [pow, ih, pow_succ]

/-- With jitter off, `calculateDelay` is the capped exponential formula. -/
theorem Retry.calculateDelay_noJitter (r : Retry) (hj : r.Jitter = false)
    (n : Nat) :
    r.calculateDelay 1 n =
      min ((⌊(r.BaseDelay : ℚ) * r.Multiplier ^ (n - 1)⌋).toNat) r.MaxDelay := by
  unfold Retry.calculateDelay
  rw [hj, pow_eq_hpow]
  simp only [Bool.false_eq_true, if_false]
  split_ifs <;> omega

/-- An always-failing retry loop started at a positive attempt index sleeps
before every attempt and performs every remaining attempt. -/
theorem Retry.ExecuteAux_fail_pos (r : Retry) (fn : Nat → Bool)
    (jitterFactor : ℚ) (hfail : ∀ n, fn n = false) (m : Nat) :
    ∀ a, 1 ≤ a →
      Retry.ExecuteAux r fn jitterFactor a m =
        ⟨m, (List.range' a m).map (fun i => r.calculateDelay jitterFactor i),
          false⟩ := by
  induction m with
  | zero => intro a _; simp [Retry.ExecuteAux]
  | succ k ih =>
    intro a ha
    rw [Retry.ExecuteAux]
    simp only [hfail a, Bool.false_eq_true, if_false, ha, Nat.lt_of_lt_of_le Nat.zero_lt_one ha,
      if_true, ih (a + 1) (by omega)]
    simp [List.range']

/-- C6: for the retry primitive with jitter disabled and a call that always
fails, the call is invoked exactly `MaxRetries + 1` times, the loop ends in
failure, the sleeps are `calculateDelay 1, ..., calculateDelay MaxRetries`
in order, and the delay before retry attempt `n ≥ 1` equals
`min (BaseDelay * Multiplier^(n-1), MaxDelay)` (floored to an integral
duration). -/
theorem C6_backoff_retry (r : Retry) (fn : Nat → Bool)
    (hj : r.Jitter = false) (hfail : ∀ n, fn n = false) :
    (r.Execute fn 1).calls = r.MaxRetries + 1 ∧
    (r.Execute fn 1).delays =
      (List.range' 1 r.MaxRetries).map (fun n => r.calculateDelay 1 n) ∧
    (r.Execute fn 1).ok = false ∧
    (∀ n, r.calculateDelay 1 n =
      min ((⌊(r.BaseDelay : ℚ) * r.Multiplier ^ (n - 1)⌋).toNat)
        r.MaxDelay) := by
  have hrun : r.Execute fn 1 =
      ⟨r.MaxRetries + 1,
        (List.range' 1 r.MaxRetries).map (fun n => r.calculateDelay 1 n),
        false⟩ := by
    rw [Retry.Execute, Retry.ExecuteAux]
    simp only [hfail 0, Bool.false_eq_true, if_false, Nat.lt_irrefl,
      Retry.ExecuteAux_fail_pos r fn 1 hfail r.MaxRetries 1 (by omega)]
    simp
  refine ⟨by rw [hrun], by rw [hrun], by rw [hrun], fun n => ?_⟩
  exact Retry.calculateDelay_noJitter r hj n

/-- Concrete instance of `C6_backoff_retry`: `maxRetries = 3`,
`baseDelay = 100` (ms), `maxDelay = 30000` (ms), multiplier 2, jitter off:
4 calls with sleeps 100, 200, 400. -/
theorem C6_backoff_retry_witness :
    ((⟨3, 100, 30000, 2, false⟩ : Retry).Execute (fun _ => false) 1).calls = 4 ∧
    ((⟨3, 100, 30000, 2, false⟩ : Retry).Execute (fun _ => false) 1).delays =
      [100, 200, 400] ∧
    ((⟨3, 100, 30000, 2, false⟩ : Retry).Execute (fun _ => false) 1).ok = false := by
  have h := C6_backoff_retry ⟨3, 100, 30000, 2, false⟩ (fun _ => false) rfl
    (fun _ => rfl)
  refine ⟨h.1, ?_, h.2.2.1⟩
  rw [h.2.1]
  have h1 := h.2.2.2 1
  have h2 := h.2.2.2 2
  have h3 := h.2.2.2 3
  show [Retry.calculateDelay _ 1 1, Retry.calculateDelay _ 1 2,
    Retry.calculateDelay _ 1 3] = [100, 200, 400]
  rw [h1, h2, h3]
  norm_num
  exact ⟨rfl, rfl, rfl⟩

end Resilience

namespace Proxy

open Resilience

/-- C1 evidence: for a dispatch through a Closed breaker to a registered
backend with a valid URL whose host refuses connections, the client does
receive 502 (written by the reverse proxy's `ErrorHandler`), but the
breaker records the dispatch as a SUCCESS: `proxyRequest` returns nil, so
`onSuccess` runs, resetting `failureCount` to 0 and incrementing
`successCount` — the consecutive-failure counter is never incremented. -/
theorem C1_unreachable_dispatch_bug (cb : Resilience.CircuitBreaker) (now : Nat)
    (h : cb.state = StateClosed) :
    (dispatch cb now true TransportOutcome.transportError).1 = 502 ∧
    (dispatch cb now true TransportOutcome.transportError).2.failureCount = 0 ∧
    (dispatch cb now true TransportOutcome.transportError).2.successCount =
      cb.successCount + 1 ∧
    (dispatch cb now true TransportOutcome.transportError).2.state = StateClosed := by
  have hex := CircuitBreaker.Execute_closed now true h
  simp [dispatch, proxyRequest, hex, CircuitBreaker.executeCall,
    CircuitBreaker.onSuccess, h]

/-- Concrete instance of `C1_unreachable_dispatch_bug` on a fresh default
breaker. -/
theorem C1_unreachable_dispatch_bug_witness :
    (dispatch (NewCircuitBreaker DefaultSettings) 0 true
        TransportOutcome.transportError).1 = 502 ∧
    (dispatch (NewCircuitBreaker DefaultSettings) 0 true
        TransportOutcome.transportError).2.failureCount = 0 ∧
    (dispatch (NewCircuitBreaker DefaultSettings) 0 true
        TransportOutcome.transportError).2.successCount =
      (NewCircuitBreaker DefaultSettings).successCount + 1 ∧
    (dispatch (NewCircuitBreaker DefaultSettings) 0 true
        TransportOutcome.transportError).2.state = StateClosed :=
  C1_unreachable_dispatch_bug (NewCircuitBreaker DefaultSettings) 0 rfl

/-- C7 as stated is false on the code: `RegisterService` performs no
duplicate check and cannot fail (its type returns only the updated
gateway); registering a second config under an already-present name
silently replaces the stored entry.  Registering "users" at URL
`http://old` and then again at `http://new` leaves `http://new` in the
registry. -/
theorem C7_register_duplicate_counterexample :
    ((((NewGateway.RegisterService
          ⟨"users", "http://old", "", 5, 0,
            some (NewCircuitBreaker DefaultSettings)⟩).RegisterService
          ⟨"users", "http://new", "", 5, 0,
            some (NewCircuitBreaker DefaultSettings)⟩).services
        "users").map (fun c => c.URL) = some "http://new") ∧
    (((NewGateway.RegisterService
          ⟨"users", "http://old", "", 5, 0,
            some (NewCircuitBreaker DefaultSettings)⟩).services
        "users").map (fun c => c.URL) = some "http://old") := by
  decide

/-- C7 amended: `register` never fails; it stores the (defaulted) config
under its name, overwriting any existing entry with that name, and leaves
every other name's entry unchanged. -/
theorem C7_register_overwrite (g : Gateway) (service : ServiceConfig)
    (n : String) :
    (g.RegisterService service).services service.Name =
      some (serviceWithDefaults service) ∧
    (n ≠ service.Name → (g.RegisterService service).services n = g.services n) := by
  have hname : (serviceWithDefaults service).Name = service.Name := by
    rcases service with ⟨nm, u, hp, t, rt, cb⟩
    rcases cb <;> simp [serviceWithDefaults] <;> split_ifs <;> rfl
  constructor
  · simp [Gateway.RegisterService, hname]
  · intro hne
    simp [Gateway.RegisterService, hname, hne]

/-- Concrete instance of `C7_register_overwrite`. -/
theorem C7_register_overwrite_witness :
    ((NewGateway.RegisterService ⟨"a", "http://a", "", 5, 0,
        some (NewCircuitBreaker DefaultSettings)⟩).services "a" =
      some (serviceWithDefaults ⟨"a", "http://a", "", 5, 0,
        some (NewCircuitBreaker DefaultSettings)⟩)) ∧
    ((NewGateway.RegisterService ⟨"a", "http://a", "", 5, 0,
        some (NewCircuitBreaker DefaultSettings)⟩).services "b" =
      NewGateway.services "b") :=
  ⟨(C7_register_overwrite NewGateway
      ⟨"a", "http://a", "", 5, 0, some (NewCircuitBreaker DefaultSettings)⟩ "b").1,
   (C7_register_overwrite NewGateway
      ⟨"a", "http://a", "", 5, 0, some (NewCircuitBreaker DefaultSettings)⟩ "b").2
      (by decide)⟩

/-- Folding the health loop body over any accumulator appends the mapped
entries and conjoins the healthy flags. -/
theorem healthStep_foldl (entries : List (ServiceConfig × ProbeOutcome)) :
    ∀ acc : List HealthEntry × Bool,
      entries.foldl healthStep acc =
        (acc.1 ++ entries.map (fun e =>
            ⟨e.1.Name, (checkServiceHealth e.1 e.2).1,
              (checkServiceHealth e.1 e.2).2, serviceStats e.1⟩),
         acc.2 && entries.all (fun e => (checkServiceHealth e.1 e.2).1)) := by
  induction entries with
  | nil => intro acc; simp
  | cons e rest ih =>
    intro acc
    rw [List.foldl_cons, ih]
    simp [healthStep, List.append_assoc, Bool.and_assoc, List.all_cons]

/-- C8: the aggregate health response's `overallHealthy` equals the logical
AND of the per-backend healthy flags, the HTTP status is 200 exactly when
every backend is healthy and 503 otherwise, and the per-backend breakdown
lists, for each registered service in order, its name, healthy flag, detail
string and its breaker's snapshot (state name and counters, via
`GetStats`). -/
theorem C8_health_aggregation (entries : List (ServiceConfig × ProbeOutcome)) :
    (HealthCheckHandler entries).overallHealthy =
      entries.all (fun e => (checkServiceHealth e.1 e.2).1) ∧
    (HealthCheckHandler entries).status =
      (if entries.all (fun e => (checkServiceHealth e.1 e.2).1) then 200
       else 503) ∧
    (HealthCheckHandler entries).services =
      entries.map (fun e =>
        ⟨e.1.Name, (checkServiceHealth e.1 e.2).1,
          (checkServiceHealth e.1 e.2).2, serviceStats e.1⟩) := by
  have h := healthStep_foldl entries ([], true)
  simp only [HealthCheckHandler, h]
  rw [Bool.true_and]
  simp

end Proxy
